import Mathlib

/-!
Verification of the Noisy-to-Nice data-quality analysis application.

The frontend (src/frontend/src/services/api.js, components/FileUpload.jsx,
components/DataQuality.jsx) is embedded directly from the JavaScript source.
The backend scoring engine (Metric Extractor, Issue Detector, Score
Calculator, Insight Requester, Analysis Coordinator) is a Python service
whose code is not in src/; those components are modelled from the
specification, as marked on each definition.
-/

namespace NoisyToNice

/-! ## Data model -/

/-- Issue severity tiers, ordered info < warning < critical (spec section 3). -/
inductive Severity
  | info
  | warning
  | critical
deriving DecidableEq

/-- The enumerated issue type tags (spec section 3). -/
inductive IssueType
  | missing_data
  | duplicates
  | small_dataset
  | class_imbalance
  | high_cardinality
deriving DecidableEq

/-- A detected quality problem (spec section 3). -/
structure Issue where
  type : IssueType
  severity : Severity
  message : String
  suggestion : String
deriving DecidableEq

/-- Per-column inferred types (spec section 3). -/
inductive ColType
  | numeric
  | categorical
  | datetime
  | text
  | boolean
deriving DecidableEq

/-- The Metrics snapshot derived from a dataset (spec section 3). -/
structure Metrics where
  total_rows : Nat
  total_columns : Nat
  missing_percentage : ℚ
  duplicate_rows : Nat
  column_missing : List (String × Nat)
  column_types : List (String × ColType)
deriving DecidableEq

/-- The optional structured AI insight (spec section 3). -/
structure AIInsight where
  assessment : String
  recommendations : List String
deriving DecidableEq

/-! ## Issue Detector

Modelled from the spec (section 4.2): the Python implementation is not in
src/. The rule table is evaluated in order; issues are then sorted by
severity descending, ties broken by rule evaluation order. Metrics as
specified does not carry per-column value distributions, so the two
per-column rules (class_imbalance, high_cardinality) take the categorical
column statistics as an explicit argument. -/

/-- Modelled from the spec: summary statistics of one categorical column,
consumed by the per-column rules of section 4.2. -/
structure CatStat where
  column : String
  distinctCount : Nat
  topShare : ℚ

/-- Stable severity-descending sort (critical, warning, info), keeping rule
evaluation order within each tier (spec section 4.2). -/
def sortBySeverity (l : List Issue) : List Issue :=
  l.filter (fun i => i.severity == Severity.critical)
    ++ l.filter (fun i => i.severity == Severity.warning)
    ++ l.filter (fun i => i.severity == Severity.info)

/-- Modelled from the spec: the critical missing_data issue (> 20%). -/
def missingCriticalIssue (m : Metrics) : Issue :=
  { type := IssueType.missing_data, severity := Severity.critical,
    message := toString m.missing_percentage ++ "% of values are missing",
    suggestion := "Impute or drop the most affected columns" }

/-- Modelled from the spec: the warning missing_data issue (5% to 20%). -/
def missingWarningIssue (m : Metrics) : Issue :=
  { type := IssueType.missing_data, severity := Severity.warning,
    message := toString m.missing_percentage ++ "% of values are missing",
    suggestion := "Consider imputing the missing values" }

/-- Modelled from the spec: the duplicates issue, warning when the
duplicate ratio is below 0.1 and critical otherwise. -/
def duplicatesIssue (m : Metrics) : Issue :=
  { type := IssueType.duplicates,
    severity :=
      if (m.duplicate_rows : ℚ) / (m.total_rows : ℚ) < 1 / 10 then
        Severity.warning
      else Severity.critical,
    message := toString m.duplicate_rows ++ " duplicate rows found",
    suggestion := "Remove the duplicate rows" }

/-- Modelled from the spec: the critical small_dataset issue (< 20 rows). -/
def smallCriticalIssue (m : Metrics) : Issue :=
  { type := IssueType.small_dataset, severity := Severity.critical,
    message := "Only " ++ toString m.total_rows ++ " rows in the dataset",
    suggestion := "Collect more data before training" }

/-- Modelled from the spec: the warning small_dataset issue (< 100 rows). -/
def smallWarningIssue (m : Metrics) : Issue :=
  { type := IssueType.small_dataset, severity := Severity.warning,
    message := "Only " ++ toString m.total_rows ++ " rows in the dataset",
    suggestion := "Consider collecting more data" }

/-- Modelled from the spec: the class_imbalance warning for one column. -/
def imbalanceIssue (c : CatStat) : Issue :=
  { type := IssueType.class_imbalance, severity := Severity.warning,
    message := "Column " ++ c.column ++ " is dominated by one value",
    suggestion := "Rebalance or stratify column " ++ c.column }

/-- Modelled from the spec: the high_cardinality info issue for one column. -/
def cardinalityIssue (c : CatStat) : Issue :=
  { type := IssueType.high_cardinality, severity := Severity.info,
    message := "Column " ++ c.column ++ " has "
      ++ toString c.distinctCount ++ " distinct values",
    suggestion := "Consider encoding or bucketing column " ++ c.column }

/-- Modelled from the spec: the Issue Detector's fixed rule list
(section 4.2), evaluated in table order and then sorted by severity. Each
message embeds the concrete triggering numbers. -/
def detectIssues (m : Metrics) (cats : List CatStat) : List Issue :=
  let missing : List Issue :=
    if 20 < m.missing_percentage then [missingCriticalIssue m]
    else if 5 < m.missing_percentage then [missingWarningIssue m]
    else []
  let dups : List Issue :=
    if 0 < m.duplicate_rows then [duplicatesIssue m] else []
  let small : List Issue :=
    if m.total_rows < 20 then [smallCriticalIssue m]
    else if m.total_rows < 100 then [smallWarningIssue m]
    else []
  let imbalance : List Issue :=
    cats.filterMap (fun c =>
      if 9 / 10 < c.topShare then some (imbalanceIssue c) else none)
  let cardinality : List Issue :=
    cats.filterMap (fun c =>
      if (m.total_rows : ℚ) / 2 < (c.distinctCount : ℚ) then
        some (cardinalityIssue c)
      else none)
  sortBySeverity (missing ++ dups ++ small ++ imbalance ++ cardinality)

/-- Whether the issue list holds an issue with the given type and severity. -/
def hasIssue (issues : List Issue) (t : IssueType) (s : Severity) : Bool :=
  issues.any (fun i => i.type == t && i.severity == s)

/-- hasIssue as an existential over the list. -/
theorem hasIssue_eq_true_iff (l : List Issue) (t : IssueType) (s : Severity) :
    hasIssue l t s = true ↔ ∃ i ∈ l, i.type = t ∧ i.severity = s := by
  simp [hasIssue, List.any_eq_true, Bool.and_eq_true, beq_iff_eq]

/-- Sorting by severity does not change the set of issues. -/
theorem mem_sortBySeverity (i : Issue) (l : List Issue) :
    i ∈ sortBySeverity l ↔ i ∈ l := by
  simp only [sortBySeverity, List.mem_append, List.mem_filter]
  cases h : i.severity <;> simp [h, beq_iff_eq]

/-- The small_dataset issues the detector emits, by severity: the critical
instance exactly when total_rows < 20, the warning instance exactly when
20 ≤ total_rows < 100. -/
theorem hasIssue_small_dataset (m : Metrics) (cats : List CatStat) (s : Severity) :
    hasIssue (detectIssues m cats) IssueType.small_dataset s = true ↔
      ((s = Severity.critical ∧ m.total_rows < 20) ∨
        (s = Severity.warning ∧ 20 ≤ m.total_rows ∧ m.total_rows < 100)) := by
  rw [hasIssue_eq_true_iff]
  unfold detectIssues
  constructor
  · rintro ⟨i, hmem, htype, hsev⟩
    rw [mem_sortBySeverity] at hmem
    simp only [List.mem_append, List.mem_filterMap] at hmem
    rcases hmem with ((((h | h) | h) | h) | h)
    · split_ifs at h <;>
        simp_all [missingCriticalIssue, missingWarningIssue]
    · split_ifs at h <;> simp_all [duplicatesIssue]
    · split_ifs at h with h1 h2
      · simp only [List.mem_singleton] at h
        subst h
        simp only [smallCriticalIssue] at hsev
        exact Or.inl ⟨hsev.symm, h1⟩
      · simp only [List.mem_singleton] at h
        subst h
        simp only [smallWarningIssue] at hsev
        exact Or.inr ⟨hsev.symm, by omega, h2⟩
      · simp at h
    · obtain ⟨c, _, hc⟩ := h
      split_ifs at hc
      · injection hc with hc
        subst hc
        simp [imbalanceIssue] at htype
    · obtain ⟨c, _, hc⟩ := h
      split_ifs at hc
      · injection hc with hc
        subst hc
        simp [cardinalityIssue] at htype
  · rintro (⟨hs, hlt⟩ | ⟨hs, hge, hlt⟩)
    · refine ⟨smallCriticalIssue m, ?_, rfl, hs.symm⟩
      rw [mem_sortBySeverity]
      simp only [List.mem_append]
      simp [hlt]
    · refine ⟨smallWarningIssue m, ?_, rfl, hs.symm⟩
      rw [mem_sortBySeverity]
      have h20 : ¬ m.total_rows < 20 := by omega
      simp only [List.mem_append]
      simp [h20, hlt]

/-- C5: the Issue Detector never emits both the critical (< 20 rows) and
the warning (< 100 rows) small_dataset issues for the same metrics, and
when total_rows < 20 only the critical instance is emitted. -/
theorem small_dataset_exclusive (m : Metrics) (cats : List CatStat) :
    (hasIssue (detectIssues m cats) IssueType.small_dataset Severity.critical
        && hasIssue (detectIssues m cats) IssueType.small_dataset Severity.warning)
      = false ∧
    (m.total_rows < 20 →
      hasIssue (detectIssues m cats) IssueType.small_dataset Severity.critical = true ∧
      hasIssue (detectIssues m cats) IssueType.small_dataset Severity.warning = false) := by
  have hc := hasIssue_small_dataset m cats Severity.critical
  have hw := hasIssue_small_dataset m cats Severity.warning
  constructor
  · rcases hb : hasIssue (detectIssues m cats) IssueType.small_dataset Severity.critical with _ | _
    · simp
    · rcases hb2 : hasIssue (detectIssues m cats) IssueType.small_dataset Severity.warning with _ | _
      · simp
      · exfalso
        have h1 := hc.mp hb
        have h2 := hw.mp hb2
        simp at h1 h2
        omega
  · intro hlt
    constructor
    · exact hc.mpr (Or.inl ⟨rfl, hlt⟩)
    · rcases hb2 : hasIssue (detectIssues m cats) IssueType.small_dataset Severity.warning with _ | _
      · rfl
      · have h2 := hw.mp hb2
        simp at h2
        omega

/-! ## Score Calculator

Modelled from the spec (section 4.3): the Python implementation is not in
src/. Start at 100; deduct critical 20, warning 10, info 2 per issue; add a
missing-data penalty of 0.5 point per percentage point capped at 30 and a
duplicate penalty of 0.3 point per percentage of duplicate rows capped at
20; final score is round(100 - sum of deductions) clamped to [0, 100]. -/

/-- Modelled from the spec: per-issue deduction by severity (critical 20,
warning 10, info 2). -/
def issueDeduction : Severity → ℚ
  | .critical => 20
  | .warning => 10
  | .info => 2

/-- Modelled from the spec: missing-data penalty, 0.5 point per percentage
point of missing data, capped at 30. -/
def missingPenalty (m : Metrics) : ℚ :=
  min (m.missing_percentage * (1 / 2)) 30

/-- Modelled from the spec: percentage of duplicate rows, guarded to 0 when
the dataset has no rows. -/
def duplicatePercentage (m : Metrics) : ℚ :=
  if m.total_rows = 0 then 0
  else (m.duplicate_rows : ℚ) * 100 / (m.total_rows : ℚ)

/-- Modelled from the spec: duplicate penalty, 0.3 point per percentage of
duplicate rows, capped at 20. -/
def duplicatePenalty (m : Metrics) : ℚ :=
  min (duplicatePercentage m * (3 / 10)) 20

/-- Modelled from the spec: the Score Calculator. Deductions are the sum of
per-issue deductions plus the two raw-metric penalties; the result is
round(100 - deductions) clamped into [0, 100]. -/
def calculateScore (m : Metrics) (issues : List Issue) : ℤ :=
  let deductions :=
    (issues.map (fun i => issueDeduction i.severity)).sum
      + missingPenalty m + duplicatePenalty m
  min 100 (max 0 (round ((100 : ℚ) - deductions)))

/-! ## Metric Extractor

Modelled from the spec (section 4.1): the Python implementation is not in
src/. total_rows and total_columns come from the dataset shape;
missing_percentage is the overall null-cell fraction times 100 rounded to
two decimals, and 0 when total_rows times total_columns is 0;
duplicate_rows counts rows that repeat an earlier row; per-column missing
counts and types are copied from the external profile, defaulting to count
0 and type text for unreported columns. -/

/-- A dataset row: one optional value per column (None is a null cell). -/
abbrev Row := List (Option String)

/-- The external profiler output consumed by the Metric Extractor
(spec sections 4.1 and 6). -/
structure Profile where
  columnNulls : List (String × Nat)
  columnTypes : List (String × ColType)
  reportLocation : String

/-- Round a rational to two decimal places (spec section 4.1). -/
def roundTo2 (q : ℚ) : ℚ :=
  ((round (q * 100) : ℤ) : ℚ) / 100

/-- Modelled from the spec: overall missing percentage, 0 when the cell
count is 0 (guard against division by zero — report 0, not an error). -/
def missingPercentage (totalRows totalCols : Nat) (nullCounts : List Nat) : ℚ :=
  if totalRows * totalCols = 0 then 0
  else roundTo2 (((nullCounts.sum : ℚ) / ((totalRows : ℚ) * (totalCols : ℚ))) * 100)

/-- Modelled from the spec: rows that are exact duplicates of an earlier
row; first occurrences are kept, only repeats are counted. -/
def duplicateRows (rows : List Row) : Nat :=
  rows.length - rows.dedup.length

/-- Modelled from the spec: the Metric Extractor, assembling a Metrics
value from the dataset shape and the external profile. -/
def extractMetrics (columns : List String) (rows : List Row) (prof : Profile) : Metrics :=
  let nulls := columns.map (fun c => (prof.columnNulls.lookup c).getD 0)
  { total_rows := rows.length
    total_columns := columns.length
    missing_percentage := missingPercentage rows.length columns.length nulls
    duplicate_rows := duplicateRows rows
    column_missing := columns.map (fun c => (c, (prof.columnNulls.lookup c).getD 0))
    column_types := columns.map (fun c => (c, (prof.columnTypes.lookup c).getD ColType.text)) }

/-- C4: when the dataset has zero rows or zero columns the extractor
reports missing_percentage = 0 instead of failing on the division. -/
theorem extractMetrics_missing_percentage_zero
    (columns : List String) (rows : List Row) (prof : Profile)
    (h : rows.length = 0 ∨ columns.length = 0) :
    (extractMetrics columns rows prof).missing_percentage = 0 := by
  unfold extractMetrics missingPercentage
  have hz : rows.length * columns.length = 0 := by
    rcases h with h | h <;> simp [h]
  simp [hz]

/-- Witness for C4 at a concrete empty dataset. -/
theorem extractMetrics_missing_percentage_zero_witness :
    (extractMetrics ["a", "b"] [] ⟨[("a", 3)], [], "r"⟩).missing_percentage = 0 :=
  extractMetrics_missing_percentage_zero ["a", "b"] [] ⟨[("a", 3)], [], "r"⟩
    (Or.inl rfl)

/-- A concrete Metrics value used by witnesses. -/
def metricsExample : Metrics :=
  { total_rows := 20
    total_columns := 9
    missing_percentage := 5
    duplicate_rows := 0
    column_missing := [("a", 9)]
    column_types := [("a", ColType.numeric)] }

/-- C2: for every input, the quality score is an integer in [0, 100]. -/
theorem calculateScore_mem_Icc (m : Metrics) (issues : List Issue) :
    0 ≤ calculateScore m issues ∧ calculateScore m issues ≤ 100 := by
  unfold calculateScore
  constructor
  · exact le_min (by norm_num) (le_max_left 0 _)
  · exact min_le_left 100 _

/-- C3: the Score Calculator is deterministic — two invocations on identical
(Metrics, Issues) inputs return the identical score. -/
theorem calculateScore_deterministic (m₁ m₂ : Metrics) (i₁ i₂ : List Issue)
    (hm : m₁ = m₂) (hi : i₁ = i₂) :
    calculateScore m₁ i₁ = calculateScore m₂ i₂ := by
  rw [hm, hi]

/-- Witness for C3 at a concrete input. -/
theorem calculateScore_deterministic_witness :
    calculateScore metricsExample [] = calculateScore metricsExample [] :=
  calculateScore_deterministic metricsExample metricsExample [] [] rfl rfl

/-! ## Insight Requester

Modelled from the spec (section 4.4): the Python implementation is not in
src/. The external generator call is represented by its outcome; on any
failure the requester returns a deterministic fallback insight synthesized
from the issues list and never propagates the failure. -/

/-- Modelled from the spec: the score tier wording used by the fallback
assessment. -/
def scoreTier (score : ℤ) : String :=
  if 80 ≤ score then "excellent"
  else if 60 ≤ score then "good"
  else "needs improvement"

/-- Modelled from the spec: the deterministic fallback AI Insight,
synthesized from the issues list, with recommendations taken from each
issue's suggestion field. -/
def fallbackInsight (issues : List Issue) (score : ℤ) : AIInsight :=
  { assessment := "Dataset quality is " ++ scoreTier score ++ "; review "
      ++ toString issues.length ++ " issues below"
    recommendations := issues.map (fun i => i.suggestion) }

/-- Modelled from the spec: the Insight Requester. On success it returns
the parsed external insight; on any failure of the external call it
returns the fallback instead of propagating the failure. -/
def requestInsight (external : Except String AIInsight)
    (issues : List Issue) (score : ℤ) : AIInsight :=
  match external with
  | .ok insight => insight
  | .error _ => fallbackInsight issues score

/-! ## Analysis Coordinator

Modelled from the spec (section 4.5): the Python implementation is not in
src/. One pipeline run is a function of the dataset, the external
profiler's outcome and the external AI generator's outcome. -/

/-- Analysis lifecycle states (spec section 3). -/
inductive Status
  | not_started
  | in_progress
  | completed
  | failed
deriving DecidableEq

/-- The persisted result of one analysis run (spec section 3). -/
structure AnalysisRecord where
  dataset_id : String
  status : Status
  quality_score : Option ℤ
  metrics : Option Metrics
  issues : List Issue
  ai_insight : Option AIInsight
  report_location : Option String
  error_detail : Option String
deriving DecidableEq

/-- Modelled from the spec: one pipeline run of the Analysis Coordinator.
A profiler failure ends the run as failed with the error detail captured;
otherwise the pipeline (Metric Extractor, Issue Detector, Score
Calculator, Insight Requester) runs and the record is persisted as
completed. The categorical column statistics feeding the per-column rules
travel with the profile. -/
def runAnalysis (datasetId : String) (columns : List String) (rows : List Row)
    (cats : List CatStat)
    (profilerOutcome : Except String Profile)
    (aiOutcome : Except String AIInsight) : AnalysisRecord :=
  match profilerOutcome with
  | .error e =>
    { dataset_id := datasetId, status := Status.failed, quality_score := none,
      metrics := none, issues := [], ai_insight := none,
      report_location := none, error_detail := some e }
  | .ok prof =>
    let m := extractMetrics columns rows prof
    let issues := detectIssues m cats
    let score := calculateScore m issues
    let insight := requestInsight aiOutcome issues score
    { dataset_id := datasetId, status := Status.completed,
      quality_score := some score, metrics := some m, issues := issues,
      ai_insight := some insight,
      report_location := some prof.reportLocation, error_detail := none }

/-- C6: when the external AI generator call fails, the failure is not
propagated — the analysis still terminates with status completed and a
non-null fallback AI Insight synthesized from the Issues list. -/
theorem runAnalysis_ai_failure_completes (datasetId : String)
    (columns : List String) (rows : List Row) (cats : List CatStat)
    (prof : Profile) (e : String) :
    (runAnalysis datasetId columns rows cats (.ok prof) (.error e)).status
        = Status.completed ∧
      (runAnalysis datasetId columns rows cats (.ok prof) (.error e)).ai_insight
        = some (fallbackInsight
            (detectIssues (extractMetrics columns rows prof) cats)
            (calculateScore (extractMetrics columns rows prof)
              (detectIssues (extractMetrics columns rows prof) cats))) := by
  exact ⟨rfl, rfl⟩

/-! ## Fetch path and the client result loader (claim C1)

The backend fetch operation is modelled from the spec (sections 4.5 and
6): it returns one of not_started, in_progress, completed or failed, and a
dataset never analyzed (no stored record) yields the distinguishable
not_started result, not an error. The client side is embedded from
loadAnalysis in src/frontend/src/services/api.js (DataQuality component):
a successful result is stored, a not_started response resets the analysis
to the empty state, and the error message is never set by the loader. -/

/-- Modelled from the spec: the result of the fetch-analysis operation. -/
inductive FetchResult
  | notStarted
  | inProgress
  | completedRun (record : AnalysisRecord)
  | failedRun (error_detail : String)
deriving DecidableEq

/-- Modelled from the spec: fetch the current analysis state for a dataset
from its stored record. A dataset on which analysis has never been
started (no record) gives the distinguishable notStarted result. -/
def fetchAnalysis (stored : Option AnalysisRecord) : FetchResult :=
  match stored with
  | none => FetchResult.notStarted
  | some r =>
    match r.status with
    | Status.not_started => FetchResult.notStarted
    | Status.in_progress => FetchResult.inProgress
    | Status.completed => FetchResult.completedRun r
    | Status.failed => FetchResult.failedRun (r.error_detail.getD "unknown")

/-- The JSON object shape the frontend receives from the HTTP layer and
from ApiService (src/frontend/src/services/api.js): a success flag, an
optional message, an optional status string, an optional token and an
optional analysis payload. -/
structure ApiResult where
  success : Bool
  message : Option String
  status : Option String
  token : Option String
  record : Option AnalysisRecord
deriving DecidableEq

/-- Modelled from the spec: how the HTTP layer serializes a FetchResult
for the frontend, matching the fields DataQuality.loadAnalysis inspects
(success, status). -/
def serializeFetch (r : FetchResult) : ApiResult :=
  match r with
  | FetchResult.notStarted =>
    { success := false, message := none, status := some "not_started",
      token := none, record := none }
  | FetchResult.inProgress =>
    { success := false, message := none, status := some "in_progress",
      token := none, record := none }
  | FetchResult.completedRun rec =>
    { success := true, message := none, status := some "completed",
      token := none, record := some rec }
  | FetchResult.failedRun e =>
    { success := false, message := some e, status := some "failed",
      token := none, record := none }

/-- The DataQuality component state touched by loadAnalysis
(src/frontend/src/services/api.js, DataQuality component). -/
structure QualityViewState where
  analysis : Option ApiResult
  loading : Bool
  error : String
deriving DecidableEq

/-- Embedded from loadAnalysis in the DataQuality component: store the
result when successful, reset the analysis to the empty state on a
not_started status, and clear the loading flag; the error message is
never touched. -/
def loadAnalysis (s : QualityViewState) (result : ApiResult) : QualityViewState :=
  let s1 : QualityViewState := { s with loading := true }
  let s2 : QualityViewState :=
    if result.success then { s1 with analysis := some result }
    else if result.status == some "not_started" then { s1 with analysis := none }
    else s1
  { s2 with loading := false }

/-- C1: fetching analysis on a dataset never analyzed returns the
distinguishable not_started result rather than an error, and the client
loader treats that response as a valid empty state: the analysis becomes
none, no error message is set, and loading ends. -/
theorem fetchAnalysis_not_started (s : QualityViewState) :
    fetchAnalysis none = FetchResult.notStarted ∧
      (loadAnalysis s (serializeFetch (fetchAnalysis none))).analysis = none ∧
      (loadAnalysis s (serializeFetch (fetchAnalysis none))).error = s.error ∧
      (loadAnalysis s (serializeFetch (fetchAnalysis none))).loading = false := by
  refine ⟨rfl, ?_, rfl, rfl⟩
  simp [fetchAnalysis, serializeFetch, loadAnalysis]

/-! ## ApiService (src/frontend/src/services/api.js)

Each public method wraps `fetch` plus `response.json()` in a try/catch
and returns `{ success: false, message: error.message }` when either
throws. The network call and JSON parse are embedded as one outcome:
`.ok data` for a parsed response, `.error e` for a thrown fetch or parse
error with message e. -/

/-- The object the catch branch of every ApiService method returns:
`{ success: false, message: error.message }`. -/
def errorResult (e : String) : ApiResult :=
  { success := false, message := some e, status := none, token := none,
    record := none }

namespace ApiService

/-- Embedded from ApiService.register: return the parsed response, or the
error-shaped object when fetch or json throws. -/
def register (outcome : Except String ApiResult) : ApiResult :=
  match outcome with
  | .ok data => data
  | .error e => errorResult e

/-- Embedded from ApiService.login: on success, store the token when the
response carries `success` and a token, and return the parsed response;
on a thrown error, keep the token state and return the error shape. -/
def login (tokenState : Option String) (outcome : Except String ApiResult) :
    Option String × ApiResult :=
  match outcome with
  | .ok data =>
    (if data.success && data.token.isSome then data.token else tokenState, data)
  | .error e => (tokenState, errorResult e)

/-- Embedded from ApiService.uploadFile. -/
def uploadFile (outcome : Except String ApiResult) : ApiResult :=
  match outcome with
  | .ok data => data
  | .error e => errorResult e

/-- Embedded from ApiService.getFiles. -/
def getFiles (outcome : Except String ApiResult) : ApiResult :=
  match outcome with
  | .ok data => data
  | .error e => errorResult e

/-- Embedded from ApiService.deleteFile. -/
def deleteFile (outcome : Except String ApiResult) : ApiResult :=
  match outcome with
  | .ok data => data
  | .error e => errorResult e

/-- Embedded from ApiService.analyzeFile. -/
def analyzeFile (outcome : Except String ApiResult) : ApiResult :=
  match outcome with
  | .ok data => data
  | .error e => errorResult e

/-- Embedded from ApiService.getAnalysis. -/
def getAnalysis (outcome : Except String ApiResult) : ApiResult :=
  match outcome with
  | .ok data => data
  | .error e => errorResult e

end ApiService

/-- The seven public ApiService methods. -/
inductive ApiMethod
  | register
  | login
  | uploadFile
  | getFiles
  | deleteFile
  | analyzeFile
  | getAnalysis
deriving DecidableEq

/-- One dispatcher over the seven public methods: each takes the token
state and the fetch/parse outcome and returns the new token state and the
value handed to the caller. Only login touches the token state. -/
def apiCall (m : ApiMethod) (tokenState : Option String)
    (outcome : Except String ApiResult) : Option String × ApiResult :=
  match m with
  | ApiMethod.register => (tokenState, ApiService.register outcome)
  | ApiMethod.login => ApiService.login tokenState outcome
  | ApiMethod.uploadFile => (tokenState, ApiService.uploadFile outcome)
  | ApiMethod.getFiles => (tokenState, ApiService.getFiles outcome)
  | ApiMethod.deleteFile => (tokenState, ApiService.deleteFile outcome)
  | ApiMethod.analyzeFile => (tokenState, ApiService.analyzeFile outcome)
  | ApiMethod.getAnalysis => (tokenState, ApiService.getAnalysis outcome)

/-- C8: every public ApiService method is total with respect to thrown
fetch and parse errors — for every thrown error it returns the object
`{ success := false, message := the error message }` to its caller
instead of propagating the exception (and leaves the token state alone). -/
theorem apiCall_error_shape (m : ApiMethod) (tokenState : Option String)
    (e : String) :
    apiCall m tokenState (.error e) = (tokenState, errorResult e) := by
  cases m <;> rfl

/-! ## FileUpload.handleFileUpload
(src/frontend/src/components/FileUpload.jsx)

The upload handler first rejects any file whose lowercased name does not
end in ".csv" without issuing a request; otherwise it issues the upload
request and sets the message from the outcome (the outer catch branch of
the component maps a thrown error to a generic message). -/

/-- The message state of the FileUpload component. -/
structure UploadMessage where
  type : String
  text : String
deriving DecidableEq

/-- What one handleFileUpload call did: whether an upload request was
issued, the final message state, and the final uploading flag. -/
structure UploadStep where
  requested : Bool
  message : UploadMessage
  uploading : Bool
deriving DecidableEq

/-- Embedded from handleFileUpload in FileUpload.jsx: reject non-.csv
names (case-insensitively) with an error message and no request;
otherwise request the upload and report its outcome. -/
def handleFileUpload (fileName : String) (outcome : Except String ApiResult) :
    UploadStep :=
  if !(fileName.toLower.endsWith ".csv") then
    { requested := false,
      message := { type := "error", text := "Only CSV files are allowed" },
      uploading := false }
  else
    match outcome with
    | .ok result =>
      if result.success then
        { requested := true,
          message := { type := "success", text := "File uploaded successfully!" },
          uploading := false }
      else
        { requested := true,
          message := { type := "error", text := result.message.getD "Upload failed" },
          uploading := false }
    | .error _ =>
      { requested := true,
        message := { type := "error", text := "An error occurred during upload" },
        uploading := false }

/-- C9: an upload request is issued exactly for files whose lowercased
name ends in ".csv"; for every other file no request is performed and the
error message "Only CSV files are allowed" is set. -/
theorem handleFileUpload_csv_only (fileName : String)
    (outcome : Except String ApiResult) :
    (handleFileUpload fileName outcome).requested
        = fileName.toLower.endsWith ".csv" ∧
      (fileName.toLower.endsWith ".csv" = false →
        (handleFileUpload fileName outcome).message
          = { type := "error", text := "Only CSV files are allowed" }) := by
  unfold handleFileUpload
  cases h : fileName.toLower.endsWith ".csv"
  · simp [h]
  · simp only [h, Bool.not_true, Bool.false_eq_true, if_false]
    constructor
    · cases outcome with
      | ok result => by_cases hs : result.success <;> simp [hs]
      | error e => rfl
    · intro hfalse
      exact absurd hfalse (by simp)

/-! ## DataQuality rendering
(DataQuality component in src/frontend/src/services/api.js)

The component destructures quality_score, metrics, issues and ai_insights
from the loaded analysis and renders the score section, the metric cards,
the issues section (only when issues is non-empty) and the AI-insights
section (only when ai_insights is present). -/

/-- The analysis object the DataQuality component renders. -/
structure ClientAnalysis where
  filename : String
  profiling_report_url : String
  quality_score : ℤ
  metrics : Metrics
  issues : List Issue
  ai_insights : Option AIInsight
deriving DecidableEq

/-- Embedded from getSeverityIcon in the DataQuality component. -/
def getSeverityIcon (severity : Severity) : String :=
  match severity with
  | Severity.critical => "🔴"
  | Severity.warning => "⚠️"
  | _ => "ℹ️"

/-- Embedded from the score-label conditionals of the DataQuality
component: each of the three conditions contributes its label when it
holds. -/
def scoreLabels (q : ℤ) : List String :=
  (if 80 ≤ q then ["Excellent Quality"] else [])
    ++ (if 60 ≤ q ∧ q < 80 then ["Good Quality"] else [])
    ++ (if q < 60 then ["Needs Improvement"] else [])

/-- The rendered AI-insights section. -/
structure RenderedAI where
  assessment : String
  recommendations : Option (List String)
deriving DecidableEq

/-- What the DataQuality component renders from one analysis. -/
structure RenderedReport where
  filename : String
  reportUrl : String
  scoreValue : ℤ
  scoreLabel : List String
  totalRows : Nat
  totalColumns : Nat
  missingPct : ℚ
  duplicateRows : Nat
  issuesSection : Option (List (String × Severity × String × String))
  aiSection : Option RenderedAI
deriving DecidableEq

/-- Embedded from the DataQuality component's render path: the score
section, metric cards and issues list are built from quality_score,
metrics and issues; the AI section is rendered only when ai_insights is
present, and its recommendations list only when non-empty. -/
def renderReport (a : ClientAnalysis) : RenderedReport :=
  { filename := a.filename
    reportUrl := a.profiling_report_url
    scoreValue := a.quality_score
    scoreLabel := scoreLabels a.quality_score
    totalRows := a.metrics.total_rows
    totalColumns := a.metrics.total_columns
    missingPct := a.metrics.missing_percentage
    duplicateRows := a.metrics.duplicate_rows
    issuesSection :=
      if a.issues.isEmpty then none
      else some (a.issues.map (fun i =>
        (getSeverityIcon i.severity, i.severity, i.message, i.suggestion)))
    aiSection := a.ai_insights.map (fun ins =>
      { assessment := ins.assessment
        recommendations :=
          if ins.recommendations.isEmpty then none
          else some ins.recommendations }) }

/-- The rendered report with the AI section blanked, used to compare the
non-AI parts of two renderings. -/
def stripAI (r : RenderedReport) : RenderedReport :=
  { r with aiSection := none }

/-- C7: a completed analysis with absent ai_insights is rendered as a
valid non-error state — the AI section is simply omitted while every
other part of the report (score, metrics, issues) is rendered exactly as
it would be with any ai_insights value. -/
theorem renderReport_ai_absent (a : ClientAnalysis) (ins : Option AIInsight) :
    (renderReport { a with ai_insights := none }).aiSection = none ∧
      stripAI (renderReport { a with ai_insights := ins })
        = stripAI (renderReport a) := by
  exact ⟨rfl, rfl⟩

/-- C10: the score-label rendering displays exactly one tier label, and
the three conditions partition the score range: Excellent iff the score
is at least 80, Good iff it is in [60, 80), Needs Improvement iff it is
below 60. -/
theorem scoreLabels_partition (q : ℤ) :
    (scoreLabels q).length = 1 ∧
      ("Excellent Quality" ∈ scoreLabels q ↔ 80 ≤ q) ∧
      ("Good Quality" ∈ scoreLabels q ↔ 60 ≤ q ∧ q < 80) ∧
      ("Needs Improvement" ∈ scoreLabels q ↔ q < 60) := by
  unfold scoreLabels
  split_ifs with h1 h2 h3 h2 h3 h3 <;>
    first
      | (exfalso; omega)
      | (refine ⟨by simp, ?_, ?_, ?_⟩ <;> simp <;> omega)

end NoisyToNice
